import Mathlib

/-!
Shallow embedding of the StudyPlus bot core (`app.py`, class `StudyBot`).

Conventions of the embedding:
* Timestamps are seconds (`Nat`); the stored string format `YYYY-MM-DD HH:MM:SS`
  is abstracted into the parsed value.  A stored timestamp cell that may fail
  `datetime.strptime` is an `Option Nat` (`none` = unparseable cell).
* Calendar dates (`datetime.date`) are day numbers, `dateOf t = t / 86400`,
  taken as `Int` so that the backward walk of `calculate_streak` mirrors the
  Python `date - timedelta(days=1)` arithmetic exactly.
* The `Month` column (`"%Y-%m"` bucket string) is abstracted as an opaque
  bucket key `monthOf`; no verified property depends on its granularity.
* Sheet rows are list entries; the gspread row index `i + 2` of a record at
  enumerate-position `i` corresponds to list index `i`.  `nth`, `setNth` and
  `eraseNth` model `get_all_records` indexing, `update_cell` and
  `delete_rows`.
* Integer-valued cells are `Int` (Python ints).  `int(x)` applied to the
  float `total_seconds()/60` truncates toward zero, which is `Int.tdiv`.
* Python `str.strip()` is `stripStr`; emoji prefixes of the reply strings are
  elided, the textual content of each reply is kept.
* The `threading.Lock` bracketing and the chat transport (`send_message`) are
  outside the sequential data semantics modelled here; delivered messages are
  returned as values.
-/

/-- Abstraction of `datetime.date()` applied to a parsed timestamp:
day number of a timestamp in seconds, as an `Int` so that walking backwards
by one day mirrors Python date arithmetic. -/
def dateOf (t : Nat) : Int := ((t / 86400 : Nat) : Int)

/-- Abstraction of the `"%Y-%m"` month bucket written to the `Month` column. -/
def monthOf (t : Nat) : Nat := t / 86400 / 30

/-- Python `str.strip()`: drop whitespace from both ends. -/
def stripStr (s : String) : String :=
  String.mk (((s.data.dropWhile Char.isWhitespace).reverse.dropWhile
    Char.isWhitespace).reverse)

/-- Row of the `Users` sheet
(`UserID, Username, TotalXP, CurrentStreak, TotalStudyMinutes, Rank,
JoinDate, LastActive, Status, Badges`). -/
structure UserRow where
  userId : String
  username : String
  totalXP : Int
  currentStreak : Nat
  totalStudyMinutes : Int
  rank : String
  joinDate : Int
  lastActive : Nat
  status : String
  badges : String
deriving DecidableEq

/-- Row of the `Sessions` sheet
(`SessionID, UserID, Username, StartTime, LastActivity, Status,
BreakEndTime, TotalBreakTime`). -/
structure Session where
  sessionId : String
  userId : String
  username : String
  startTime : Option Nat
  lastActivity : Option Nat
  status : String
  breakEndTime : Option Nat
  totalBreakTime : Int
deriving DecidableEq

/-- Row of the `Activities` sheet
(`ActivityID, UserID, Username, Action, XPEarned, Duration, Description,
Timestamp, Month`). -/
structure Activity where
  activityId : String
  userId : String
  username : String
  action : String
  xpEarned : Int
  duration : String
  description : String
  timestamp : Option Nat
  month : Nat
deriving DecidableEq

/-- Row of the `Goals` sheet
(`GoalID, UserID, Username, Goal, CreatedDate, Status`). -/
structure Goal where
  goalId : String
  userId : String
  username : String
  goal : String
  createdDate : Nat
  status : String
deriving DecidableEq

/-- Row of the `Reminders` sheet
(`ReminderID, UserID, Username, Message, ReminderTime, Status, Type`). -/
structure Reminder where
  reminderId : String
  userId : String
  username : String
  message : String
  reminderTime : Nat
  status : String
  rtype : String
deriving DecidableEq

/-- Placeholder rows used only to give `Option.getD` a default; every lookup
in the verified paths is guarded by a `findFirstIdx` success. -/
def dfltUser : UserRow := ⟨"", "", 0, 0, 0, "", 0, 0, "", ""⟩

def dfltSession : Session := ⟨"", "", "", none, none, "", none, 0⟩

def dfltReminder : Reminder := ⟨"", "", "", "", 0, "", ""⟩

/-- The whole spreadsheet state the claims touch, plus the monitor cooldown
clock `last_activity_check`. -/
structure BotState where
  users : List UserRow
  sessions : List Session
  activities : List Activity
  goals : List Goal
  reminders : List Reminder
  lastActivityCheck : Nat
deriving DecidableEq

/-- List lookup by position (`sessions[i]` over `get_all_records`). -/
def nth : List α → Nat → Option α
  | [], _ => none
  | x :: _, 0 => some x
  | _ :: xs, n + 1 => nth xs n

/-- Replace the row at a position (`update_cell` on sheet row `i + 2`);
out-of-range writes are a no-op. -/
def setNth : List α → Nat → α → List α
  | [], _, _ => []
  | _ :: xs, 0, a => a :: xs
  | x :: xs, n + 1, a => x :: setNth xs n a

/-- Delete the row at a position (`delete_rows(i + 2)`); out-of-range is a
no-op. -/
def eraseNth : List α → Nat → List α
  | [], _ => []
  | _ :: xs, 0 => xs
  | x :: xs, n + 1 => x :: eraseNth xs n

/-- Index of the first row satisfying a predicate: the `for ... enumerate`
loops of `app.py` that act on the first match and `break`/`return`. -/
def findFirstIdx (p : α → Bool) : List α → Option Nat
  | [] => none
  | x :: xs => if p x then some 0 else (findFirstIdx p xs).map (· + 1)

/-- Count of rows satisfying a Boolean predicate. -/
def countB (p : α → Bool) : List α → Nat
  | [] => 0
  | x :: xs => (if p x then 1 else 0) + countB p xs

/-- Translation of `StudyBot.get_rank`: descending XP thresholds, first
threshold at or below the XP wins, `Newbie` as the fall-through for
negative XP. -/
def ranksTable : List (Int × String) :=
  [(1000, "Legend"), (500, "Scholar"), (300, "Master"),
   (150, "Intermediate"), (50, "Beginner"), (0, "Newbie")]

def get_rank (xp : Int) : String :=
  match ranksTable.find? (fun p => p.1 ≤ xp) with
  | some p => p.2
  | none => "Newbie"

/-- Translation of `StudyBot.get_badges`: iterate the fixed table in its
source order (descending thresholds 500/240/150/110/50) and append every
badge whose threshold is at or below the minute total. -/
def badgeLevels : List (Int × String) :=
  [(500, "Master Scholar"), (240, "Diamond Crown"), (150, "Golden Genius"),
   (110, "Silver Brain"), (50, "Bronze Mind")]

def get_badges (total_minutes : Int) : List String :=
  badgeLevels.filterMap (fun p => if p.1 ≤ total_minutes then some p.2 else none)

/-- Translation of `StudyBot.get_user_badges`. -/
def get_user_badges (total_minutes : Int) : String :=
  String.intercalate ", " (get_badges total_minutes)

/-- Translation of `StudyBot.get_or_create_user`: return the position and
row of the first `Users` row with the given `UserID`, appending a fresh row
when none exists. -/
def get_or_create_user (userid username : String) (now : Nat)
    (users : List UserRow) : List UserRow × Nat × UserRow :=
  match findFirstIdx (fun u => u.userId == userid) users with
  | some i => (users, i, (nth users i).getD dfltUser)
  | none =>
    let newUser : UserRow :=
      ⟨userid, username, 0, 0, 0, "Newbie", dateOf now, now, "Inactive", ""⟩
    (users ++ [newUser], users.length, newUser)

/-- Translation of `StudyBot.update_user_xp`: add to `TotalXP`, recompute
`Rank`, refresh `LastActive`, and rewrite `Badges` from the OLD
`TotalStudyMinutes` when the recomputed string differs.  No clamping of the
new XP total is performed. -/
def update_user_xp (userid : String) (xp_to_add : Int) (now : Nat)
    (users : List UserRow) : List UserRow :=
  match get_or_create_user userid "" now users with
  | (users1, row_idx, user) =>
    let new_xp := user.totalXP + xp_to_add
    let users2 := setNth users1 row_idx
      { user with totalXP := new_xp, rank := get_rank new_xp, lastActive := now }
    let badges := get_user_badges user.totalStudyMinutes
    if badges = user.badges then users2
    else setNth users2 row_idx
      { user with totalXP := new_xp, rank := get_rank new_xp,
                  lastActive := now, badges := badges }

/-- Translation of `StudyBot.update_user_study_minutes`: add to
`TotalStudyMinutes` and rewrite `Badges` from the new total. -/
def update_user_study_minutes (userid : String) (minutes_to_add : Int)
    (now : Nat) (users : List UserRow) : List UserRow :=
  match get_or_create_user userid "" now users with
  | (users1, row_idx, user) =>
    let new_minutes := user.totalStudyMinutes + minutes_to_add
    let users2 := setNth users1 row_idx { user with totalStudyMinutes := new_minutes }
    setNth users2 row_idx
      { user with totalStudyMinutes := new_minutes,
                  badges := get_user_badges new_minutes }

/-- Attendance dates of a user collected by `StudyBot.calculate_streak`:
rows of the given user with `Action == 'Attendance'`, unparseable
timestamps skipped. -/
def attendanceDates (userid : String) (acts : List Activity) : List Int :=
  acts.filterMap (fun a =>
    if a.userId == userid && a.action == "Attendance"
    then a.timestamp.map dateOf else none)

/-- The `while current_date in attendance_dates` walk of
`StudyBot.calculate_streak`.  The fuel argument bounds the walk; the walk of
the source terminates because the date strictly decreases below the minimum
of the finite list, which takes at most `dates.length` successful steps. -/
def streakLoop (dates : List Int) : Int → Nat → Nat
  | _, 0 => 0
  | current, fuel + 1 =>
    if current ∈ dates then streakLoop dates (current - 1) fuel + 1 else 0

/-- Translation of `StudyBot.calculate_streak`. -/
def calculate_streak (userid : String) (today : Int)
    (acts : List Activity) : Nat :=
  let dates := attendanceDates userid acts
  if dates = [] then 0
  else streakLoop dates today dates.length

/-- Session rows `start`/`stop`/`working` treat as live:
`Status in ['Active', 'Break']`. -/
def abPred (userid : String) (s : Session) : Bool :=
  s.userId == userid && (s.status == "Active" || s.status == "Break")

/-- Session rows that are non-terminal in the sense of the specification:
`Status in {Active, Break, Warning}`. -/
def nonTerminalPred (userid : String) (s : Session) : Bool :=
  s.userId == userid &&
    (s.status == "Active" || s.status == "Break" || s.status == "Warning")

/-- Translation of `StudyBot.start_session`.  `sid` stands for the fresh
`uuid4` session id. -/
def start_session (username userid : String) (now : Nat) (sid : String)
    (st : BotState) : BotState × String :=
  if st.sessions.any (abPred userid) then
    (st, username ++ ", you already have an active session!")
  else
    let ns : Session := ⟨sid, userid, username, some now, some now, "Active", none, 0⟩
    ({ st with sessions := st.sessions ++ [ns] },
     username ++ ", study session started! Use !stop to end.")

/-- Translation of `StudyBot.stop_session`.  `aid` stands for the fresh
`uuid4` activity id.  The reply is `none` on the path where
`datetime.strptime(session['StartTime'], ...)` raises (unparseable cell):
the exception escapes before any mutation. -/
def stop_session (username userid : String) (now : Nat) (aid : String)
    (st : BotState) : BotState × Option String :=
  match findFirstIdx (abPred userid) st.sessions with
  | none => (st, some (username ++ ", no active session found."))
  | some i =>
    let s := (nth st.sessions i).getD dfltSession
    match s.startTime with
    | none => (st, none)
    | some t0 =>
      let total_minutes : Int := Int.tdiv ((now : Int) - (t0 : Int)) 60
      let break_time : Int := s.totalBreakTime
      let study_minutes : Int := max 0 (total_minutes - break_time)
      let xp_earned : Int := study_minutes * 2
      let newAct : Activity :=
        ⟨aid, userid, username, "StudySession", xp_earned,
         toString study_minutes ++ " min",
         "Studied for " ++ toString study_minutes ++ " minutes",
         some now, monthOf now⟩
      let st1 := { st with activities := st.activities ++ [newAct] }
      let st2 := { st1 with users := update_user_xp userid xp_earned now st1.users }
      let st3 := { st2 with
        users := update_user_study_minutes userid study_minutes now st2.users }
      let st4 := { st3 with sessions := eraseNth st3.sessions i }
      let badges := get_badges study_minutes
      let badge_msg :=
        if badges = [] then "" else " New badge: " ++ badges.getLastD "" ++ "!"
      (st4, some (username ++ ", studied " ++ toString study_minutes ++
        "min, earned " ++ toString xp_earned ++ "XP!" ++ badge_msg))

/-- Translation of `StudyBot.confirm_working`: only rows with
`Status in ['Active', 'Break']` match; the matched row gets `LastActivity`
refreshed and `Status` set to `Active`. -/
def confirm_working (username userid : String) (now : Nat)
    (st : BotState) : BotState × String :=
  match findFirstIdx (abPred userid) st.sessions with
  | some i =>
    let s := (nth st.sessions i).getD dfltSession
    ({ st with sessions := (setNth st.sessions i
        { s with lastActivity := some now, status := "Active" }) },
     username ++ ", activity confirmed! Keep studying!")
  | none => (st, username ++ ", no active session found.")

/-- Break duration of `StudyBot.start_break`: `durArg` is the result of the
`re.search` duration parse (`none` = no parse, default 20); a parsed value
is clamped to the two-hour maximum of 120 minutes. -/
def breakDuration (durArg : Option Nat) : Nat :=
  match durArg with
  | none => 20
  | some d => min d 120

/-- Translation of `StudyBot.start_break`.  `rid` stands for the fresh
`uuid4` reminder id. -/
def start_break (username userid : String) (durArg : Option Nat) (now : Nat)
    (rid : String) (st : BotState) : BotState × String :=
  let duration := breakDuration durArg
  match findFirstIdx (fun s => s.userId == userid && s.status == "Active")
      st.sessions with
  | some i =>
    let s := (nth st.sessions i).getD dfltSession
    let break_end := now + duration * 60
    let st1 := { st with sessions := (setNth st.sessions i
      { s with status := "Break", breakEndTime := some break_end,
               totalBreakTime := s.totalBreakTime + (duration : Int) }) }
    let newRem : Reminder :=
      ⟨rid, userid, username, "Break time over! Back to studying",
       break_end, "Pending", "Break"⟩
    ({ st1 with reminders := st1.reminders ++ [newRem] },
     username ++ ", enjoy your " ++ toString duration ++ "min break!")
  | none => (st, username ++ ", start a session first to take a break.")

/-- One step of the `StudyBot.check_session_activity` scan.  The scan
iterates over the snapshot taken by `get_all_records` while mutating the
live sheet at the snapshot index, so the live row addressed by `i` can
differ from the snapshot row once a deletion has shifted later rows; the
model therefore reads the live list again at `i` for the status write.  An
unparseable `LastActivity` on an `Active` or `Warning` snapshot row raises
in the source and aborts the scan, keeping the mutations made so far. -/
def checkScanAux (now : Nat) : List Session → Nat → BotState → BotState
  | [], _, st => st
  | s :: rest, i, st =>
    if s.status == "Active" then
      match s.lastActivity with
      | none => st
      | some t =>
        let st1 :=
          if now - t > 7200 then
            { st with sessions :=
                match nth st.sessions i with
                | some r => setNth st.sessions i { r with status := "Warning" }
                | none => st.sessions }
          else st
        checkScanAux now rest (i + 1) st1
    else if s.status == "Warning" then
      match s.lastActivity with
      | none => st
      | some t =>
        let st1 :=
          if now - t > 1800 then
            { st with users := update_user_xp s.userId (-50) now st.users,
                      sessions := eraseNth st.sessions i }
          else st
        checkScanAux now rest (i + 1) st1
    else checkScanAux now rest (i + 1) st

/-- Translation of `StudyBot.check_session_activity`: a five-minute cooldown
on `last_activity_check`, then one scan over the `Sessions` snapshot. -/
def check_session_activity (now : Nat) (st : BotState) : BotState :=
  if now - st.lastActivityCheck < 300 then st
  else
    let st1 := { st with lastActivityCheck := now }
    checkScanAux now st1.sessions 0 st1

/-- Translation of `StudyBot.set_goal`.  With empty or too-short text the
current first `Active` goal (if any) is shown; otherwise a new `Active` goal
row is appended unconditionally.  `gid` stands for the fresh `uuid4` goal
id. -/
def set_goal (username userid : String) (args : String) (now : Nat)
    (gid : String) (st : BotState) : BotState × String :=
  if args == "" || (stripStr args).length < 3 then
    match st.goals.find? (fun g => g.userId == userid && g.status == "Active") with
    | some g => (st, username ++ ", current goal: " ++ g.goal)
    | none => (st, username ++ ", specify your goal")
  else
    let ng : Goal := ⟨gid, userid, username, stripStr args, now, "Active"⟩
    ({ st with goals := st.goals ++ [ng] },
     username ++ ", goal set: " ++ stripStr args)

/-- An `Activities` row counting as attendance of the given user for the
given day in `StudyBot.mark_attendance`; rows whose timestamp fails to
parse are skipped. -/
def attendedToday (userid : String) (today : Int) (a : Activity) : Bool :=
  a.userId == userid && a.action == "Attendance" &&
    (match a.timestamp with
     | some t => dateOf t == today
     | none => false)

/-- Translation of `StudyBot.mark_attendance`.  `aid` stands for the fresh
`uuid4` activity id. -/
def mark_attendance (username userid : String) (now : Nat) (aid : String)
    (st : BotState) : BotState × String :=
  let today := dateOf now
  if st.activities.any (attendedToday userid today) then
    (st, username ++ ", attendance already marked")
  else
    let newAct : Activity :=
      ⟨aid, userid, username, "Attendance", 10, "", "Daily attendance",
       some now, monthOf now⟩
    let st1 := { st with activities := st.activities ++ [newAct] }
    let st2 := { st1 with users := update_user_xp userid 10 now st1.users }
    let streak := calculate_streak userid today st2.activities
    match get_or_create_user userid username now st2.users with
    | (users1, row_idx, user) =>
      let st3 := { st2 with users :=
        (setNth users1 row_idx { user with currentStreak := streak }) }
      (st3, username ++ ", attendance marked! +10 XP Streak: " ++
        toString streak ++ " days")

/-- Translation of `StudyBot.send_reminder`: the fire callback re-reads the
`Reminders` sheet, acts on the first row with the given id that is still
`Pending` (delivering its message and marking it `Sent`), and is a no-op
otherwise.  The delivered message is returned (`none` = nothing
delivered). -/
def send_reminder (reminder_id : String) (rems : List Reminder) :
    List Reminder × Option String :=
  match findFirstIdx
      (fun r => r.reminderId == reminder_id && r.status == "Pending") rems with
  | some i =>
    let r := (nth rems i).getD dfltReminder
    (setNth rems i { r with status := "Sent" },
     some (r.username ++ ", reminder: " ++ r.message))
  | none => (rems, none)

/-- A sequence of scheduler fires of `send_reminder`, returning the final
`Reminders` sheet and the ids whose message was actually delivered (one log
entry per `send_message` call). -/
def fireSeq : List String → List Reminder → List Reminder × List String
  | [], rems => (rems, [])
  | rid :: rest, rems =>
    match send_reminder rid rems with
    | (rems1, some _) =>
      match fireSeq rest rems1 with
      | (remsF, log) => (remsF, rid :: log)
    | (rems1, none) => fireSeq rest rems1

/-- Rows `StudyBot.cleanup_old_sessions` collects for deletion: snapshot
positions (offset by the running index) whose `LastActivity` parses and is
more than 24 hours old; unparseable cells are skipped by the
`try/except`. -/
def oldSessionIdxs (now : Nat) : List Session → Nat → List Nat
  | [], _ => []
  | s :: rest, i =>
    match s.lastActivity with
    | some t =>
      if now - t > 86400 then i :: oldSessionIdxs now rest (i + 1)
      else oldSessionIdxs now rest (i + 1)
    | none => oldSessionIdxs now rest (i + 1)

/-- Translation of `StudyBot.cleanup_old_sessions`: collect the stale row
positions in ascending order, then delete them in reversed (descending)
order. -/
def cleanup_old_sessions (now : Nat) (st : BotState) : BotState :=
  let rows := oldSessionIdxs now st.sessions 0
  { st with sessions := rows.reverse.foldl (fun l r => eraseNth l r) st.sessions }

/-- The commands and timer events claim C1 interleaves, each carrying its
observation time and the fresh uuid the handler would draw. -/
inductive Cmd where
  | start (username userid : String) (now : Nat) (sid : String)
  | stop (username userid : String) (now : Nat) (aid : String)
  | working (username userid : String) (now : Nat)
  | brk (username userid : String) (durArg : Option Nat) (now : Nat) (rid : String)
  | tick (now : Nat)

/-- Effect of one command or monitor tick on the state (replies dropped). -/
def stepCmd (st : BotState) : Cmd → BotState
  | .start u uid now sid => (start_session u uid now sid st).1
  | .stop u uid now aid => (stop_session u uid now aid st).1
  | .working u uid now => (confirm_working u uid now st).1
  | .brk u uid d now rid => (start_break u uid d now rid st).1
  | .tick now => check_session_activity now st

/-- The empty spreadsheet the bot starts from. -/
def initState : BotState := ⟨[], [], [], [], [], 0⟩

/-- State after running a command/tick interleaving from the empty
spreadsheet. -/
def runCmds (cs : List Cmd) : BotState := cs.foldl stepCmd initState

/-- Session rows `cleanup_old_sessions` deletes: `LastActivity` parses and
is more than 24 hours (86400 seconds) before `now`. -/
def staleB (now : Nat) (s : Session) : Bool :=
  match s.lastActivity with
  | some t => now - t > 86400
  | none => false

/-- Reminder rows `send_reminder` would still act on for a given id. -/
def pendB (rid : String) (r : Reminder) : Bool :=
  r.reminderId == rid && r.status == "Pending"

/-- The row `update_user_xp` leaves behind for an existing user: XP added,
rank recomputed, `LastActive` refreshed, badges recomputed from the minute
total the row already had. -/
def xpRow (u : UserRow) (xp_to_add : Int) (now : Nat) : UserRow :=
  { u with totalXP := u.totalXP + xp_to_add,
           rank := get_rank (u.totalXP + xp_to_add),
           lastActive := now,
           badges := get_user_badges u.totalStudyMinutes }

/-! ## Helper lemmas about the row primitives -/

theorem nth_setNth_same {l : List α} {i : Nat} {b : α} (a : α)
    (h : nth l i = some b) : nth (setNth l i a) i = some a := by
  induction l generalizing i with
  | nil => simp [nth] at h
  | cons x xs ih =>
    cases i with
    | zero => simp [nth, setNth]
    | succ n => simpa [nth, setNth] using @ih n (by simpa [nth] using h)

theorem setNth_setNth (l : List α) (i : Nat) (a b : α) :
    setNth (setNth l i a) i b = setNth l i b := by
  induction l generalizing i with
  | nil => simp [setNth]
  | cons x xs ih =>
    cases i with
    | zero => simp [setNth]
    | succ n => simp [setNth, ih]

theorem countB_append (p : α → Bool) (l m : List α) :
    countB p (l ++ m) = countB p l + countB p m := by
  induction l with
  | nil => simp [countB]
  | cons x xs ih => simp [countB, ih]; omega

theorem countB_eraseNth_le (p : α → Bool) (l : List α) (i : Nat) :
    countB p (eraseNth l i) ≤ countB p l := by
  induction l generalizing i with
  | nil => simp [eraseNth]
  | cons x xs ih =>
    cases i with
    | zero => simp [eraseNth, countB]
    | succ n =>
      simp only [eraseNth, countB]
      exact Nat.add_le_add_left (ih n) _

theorem countB_setNth_le_of_false {p : α → Bool} {a : α} (ha : p a = false)
    (l : List α) (i : Nat) : countB p (setNth l i a) ≤ countB p l := by
  induction l generalizing i with
  | nil => simp [setNth]
  | cons x xs ih =>
    cases i with
    | zero => simp [setNth, countB, ha]
    | succ n =>
      simp only [setNth, countB]
      exact Nat.add_le_add_left (ih n) _

theorem countB_setNth_eq {p : α → Bool} {l : List α} {i : Nat} {b : α} {a : α}
    (hb : nth l i = some b) (hp : p a = p b) :
    countB p (setNth l i a) = countB p l := by
  induction l generalizing i with
  | nil => simp [nth] at hb
  | cons x xs ih =>
    cases i with
    | zero =>
      simp [nth] at hb
      subst hb
      simp [setNth, countB, hp]
    | succ n =>
      simp only [nth] at hb
      simp only [setNth, countB, ih hb]

theorem countB_setNth_pend {p : α → Bool} {l : List α} {i : Nat} {b : α} {a : α}
    (hb : nth l i = some b) (hpb : p b = true) (hpa : p a = false) :
    countB p (setNth l i a) + 1 = countB p l := by
  induction l generalizing i with
  | nil => simp [nth] at hb
  | cons x xs ih =>
    cases i with
    | zero =>
      simp [nth] at hb
      subst hb
      simp [setNth, countB, hpa, hpb]
      omega
    | succ n =>
      simp only [nth] at hb
      simp only [setNth, countB]
      have := ih hb
      omega

theorem countB_eq_zero_of_any_false {p : α → Bool} {l : List α}
    (h : l.any p = false) : countB p l = 0 := by
  induction l with
  | nil => simp [countB]
  | cons x xs ih =>
    simp only [List.any_cons, Bool.or_eq_false_iff] at h
    simp [countB, h.1, ih h.2]

theorem countB_mono {p q : α → Bool} (h : ∀ a, p a = true → q a = true)
    (l : List α) : countB p l ≤ countB q l := by
  induction l with
  | nil => simp [countB]
  | cons x xs ih =>
    simp only [countB]
    rcases hx : p x with _ | _
    · rcases q x <;> simp <;> omega
    · simp [h x hx]; omega

theorem ffi_nth {p : α → Bool} {l : List α} {i : Nat}
    (h : findFirstIdx p l = some i) :
    ∃ x, nth l i = some x ∧ p x = true := by
  induction l generalizing i with
  | nil => simp [findFirstIdx] at h
  | cons x xs ih =>
    by_cases hx : p x
    · simp [findFirstIdx, hx] at h
      exact ⟨x, by simp [← h, nth], hx⟩
    · simp only [findFirstIdx, hx, if_false, Bool.false_eq_true] at h
      rcases hj : findFirstIdx p xs with _ | j
      · simp [hj] at h
      · simp [hj] at h
        obtain ⟨y, hy, hpy⟩ := ih hj
        exact ⟨y, by simp [← h, nth, hy], hpy⟩

theorem ffi_setNth {p : α → Bool} {l : List α} {i : Nat} (a : α)
    (h : findFirstIdx p l = some i) (ha : p a = true) :
    findFirstIdx p (setNth l i a) = some i := by
  induction l generalizing i with
  | nil => simp [findFirstIdx] at h
  | cons x xs ih =>
    by_cases hx : p x
    · simp [findFirstIdx, hx] at h
      simp [← h, setNth, findFirstIdx, ha]
    · simp only [findFirstIdx, hx, if_false, Bool.false_eq_true] at h
      rcases hj : findFirstIdx p xs with _ | j
      · simp [hj] at h
      · simp [hj] at h
        cases i with
        | zero => omega
        | succ n =>
          have hn : j = n := by omega
          subst hn
          simp [setNth, findFirstIdx, hx, ih hj]

/-! ## Specification lemmas for the user-table helpers -/

theorem get_or_create_user_found {users : List UserRow} {userid : String}
    {j : Nat} {u : UserRow} (name : String) (now : Nat)
    (hj : findFirstIdx (fun w => w.userId == userid) users = some j)
    (hu : nth users j = some u) :
    get_or_create_user userid name now users = (users, j, u) := by
  unfold get_or_create_user
  rw [hj]
  simp [hu]

theorem update_user_xp_found {users : List UserRow} {userid : String}
    {j : Nat} {u : UserRow} (xp_to_add : Int) (now : Nat)
    (hj : findFirstIdx (fun w => w.userId == userid) users = some j)
    (hu : nth users j = some u) :
    update_user_xp userid xp_to_add now users =
      setNth users j (xpRow u xp_to_add now) := by
  unfold update_user_xp xpRow
  rw [get_or_create_user_found "" now hj hu]
  dsimp only
  by_cases hb : get_user_badges u.totalStudyMinutes = u.badges
  · rw [hb]
    rw [if_pos rfl]
  · rw [if_neg hb, setNth_setNth]

theorem update_user_study_minutes_found {users : List UserRow}
    {userid : String} {j : Nat} {u : UserRow} (minutes_to_add : Int) (now : Nat)
    (hj : findFirstIdx (fun w => w.userId == userid) users = some j)
    (hu : nth users j = some u) :
    update_user_study_minutes userid minutes_to_add now users =
      setNth users j
        { u with totalStudyMinutes := u.totalStudyMinutes + minutes_to_add,
                 badges := get_user_badges (u.totalStudyMinutes + minutes_to_add) } := by
  unfold update_user_study_minutes
  rw [get_or_create_user_found "" now hj hu]
  dsimp only
  rw [setNth_setNth]

/-- Effect of `update_user_xp` followed by `update_user_study_minutes` on an
existing user row, the pair `stop_session` performs. -/
theorem update_xp_then_minutes {users : List UserRow} {userid : String}
    {j : Nat} {u : UserRow} (xp mins : Int) (now1 now2 : Nat)
    (hj : findFirstIdx (fun w => w.userId == userid) users = some j)
    (hu : nth users j = some u) :
    update_user_study_minutes userid mins now2 (update_user_xp userid xp now1 users) =
      setNth users j
        { u with totalXP := u.totalXP + xp,
                 rank := get_rank (u.totalXP + xp),
                 lastActive := now1,
                 totalStudyMinutes := u.totalStudyMinutes + mins,
                 badges := get_user_badges (u.totalStudyMinutes + mins) } := by
  have hxu : (u.userId == userid) = true := by
    obtain ⟨x, hx, hpx⟩ := ffi_nth hj
    rw [hu] at hx
    cases hx
    exact hpx
  rw [update_user_xp_found xp now1 hj hu]
  rw [update_user_study_minutes_found mins now2
      (ffi_setNth (xpRow u xp now1) hj hxu)
      (nth_setNth_same (xpRow u xp now1) hu)]
  rw [setNth_setNth]
  rfl

/-- Unfolded form of `stop_session` on a state where the user has a live
session whose `StartTime` parses to a time at or before `now`, shared by
several verified properties.  `study` is the claimed
`max 0 (floor((now - t0) / 60) - TotalBreakTime)`. -/
theorem stop_session_unfolded {st : BotState} {userid : String}
    {i j : Nat} {s : Session} {u : UserRow} {t0 : Nat}
    (username : String) (now : Nat) (aid : String)
    (hi : findFirstIdx (abPred userid) st.sessions = some i)
    (hs : nth st.sessions i = some s)
    (ht : s.startTime = some t0)
    (hle : t0 ≤ now)
    (hj : findFirstIdx (fun w => w.userId == userid) st.users = some j)
    (hu : nth st.users j = some u) :
    stop_session username userid now aid st =
      (let study : Int := max 0 ((((now - t0) / 60 : Nat) : Int) - s.totalBreakTime)
      ({ st with
          activities := st.activities ++
            [⟨aid, userid, username, "StudySession", study * 2,
              toString study ++ " min",
              "Studied for " ++ toString study ++ " minutes",
              some now, monthOf now⟩],
          users := setNth st.users j
            { u with totalXP := u.totalXP + study * 2,
                     rank := get_rank (u.totalXP + study * 2),
                     lastActive := now,
                     totalStudyMinutes := u.totalStudyMinutes + study,
                     badges := get_user_badges (u.totalStudyMinutes + study) },
          sessions := eraseNth st.sessions i },
       some (username ++ ", studied " ++ toString study ++ "min, earned " ++
         toString (study * 2) ++ "XP!" ++
         (if get_badges study = [] then ""
          else " New badge: " ++ (get_badges study).getLastD "" ++ "!")))) := by
  have hdiv : Int.tdiv ((now : Int) - (t0 : Int)) 60 = (((now - t0) / 60 : Nat) : Int) := by
    rw [← Nat.cast_sub hle]
    rw [Int.ofNat_tdiv]
    simp
  unfold stop_session
  rw [hi]
  simp only [hs, Option.getD_some, ht, hdiv]
  rw [update_xp_then_minutes _ _ now now hj hu]

/-! ## Preservation of the one-live-session-per-user bound -/

theorem start_session_preserves {st : BotState} (uname uid : String)
    (now : Nat) (sid : String)
    (h : ∀ v, countB (abPred v) st.sessions ≤ 1) :
    ∀ v, countB (abPred v) (start_session uname uid now sid st).1.sessions ≤ 1 := by
  intro v
  unfold start_session
  by_cases hex : st.sessions.any (abPred uid) = true
  · rw [if_pos hex]
    exact h v
  · rw [if_neg hex]
    have hex' : st.sessions.any (abPred uid) = false := by
      simpa using hex
    simp only [countB_append]
    by_cases hv : v = uid
    · subst hv
      rw [countB_eq_zero_of_any_false hex']
      simp [countB, abPred]
    · have hns : abPred v ⟨sid, uid, uname, some now, some now, "Active", none, 0⟩ = false := by
        unfold abPred
        simp only
        have : (uid == v) = false := by
          simp [Ne.symm hv]
        simp [this]
      simp [countB, hns]
      exact h v

theorem stop_session_preserves {st : BotState} (uname uid : String)
    (now : Nat) (aid : String)
    (h : ∀ v, countB (abPred v) st.sessions ≤ 1) :
    ∀ v, countB (abPred v) (stop_session uname uid now aid st).1.sessions ≤ 1 := by
  intro v
  unfold stop_session
  rcases hi : findFirstIdx (abPred uid) st.sessions with _ | i
  · exact h v
  · dsimp only
    cases hts : ((nth st.sessions i).getD dfltSession).startTime with
    | none => exact h v
    | some t0 =>
      dsimp only
      exact le_trans (countB_eraseNth_le _ _ _) (h v)

theorem confirm_working_preserves {st : BotState} (uname uid : String)
    (now : Nat)
    (h : ∀ v, countB (abPred v) st.sessions ≤ 1) :
    ∀ v, countB (abPred v) (confirm_working uname uid now st).1.sessions ≤ 1 := by
  intro v
  unfold confirm_working
  rcases hi : findFirstIdx (abPred uid) st.sessions with _ | i
  · exact h v
  · obtain ⟨x, hx, hpx⟩ := ffi_nth hi
    have hab : (x.status == "Active" || x.status == "Break") = true := by
      unfold abPred at hpx
      simp only [Bool.and_eq_true] at hpx
      exact hpx.2
    dsimp only
    rw [hx, Option.getD_some]
    have hp : abPred v { x with lastActivity := some now, status := "Active" } = abPred v x := by
      unfold abPred
      simp [hab]
    rw [countB_setNth_eq hx hp]
    exact h v

theorem start_break_preserves {st : BotState} (uname uid : String)
    (durArg : Option Nat) (now : Nat) (rid : String)
    (h : ∀ v, countB (abPred v) st.sessions ≤ 1) :
    ∀ v, countB (abPred v) (start_break uname uid durArg now rid st).1.sessions ≤ 1 := by
  intro v
  unfold start_break
  dsimp only
  rcases hi : findFirstIdx (fun s => s.userId == uid && s.status == "Active")
      st.sessions with _ | i
  · simp only [hi]
    exact h v
  · obtain ⟨x, hx, hpx⟩ := ffi_nth hi
    have hact : (x.status == "Active") = true := by
      simp only [Bool.and_eq_true] at hpx
      exact hpx.2
    simp only [hi]
    rw [hx, Option.getD_some]
    have hp : abPred v
        { x with status := "Break",
                 breakEndTime := some (now + breakDuration durArg * 60),
                 totalBreakTime := x.totalBreakTime + ((breakDuration durArg : Nat) : Int) } =
        abPred v x := by
      unfold abPred
      simp [hact]
    rw [countB_setNth_eq hx hp]
    exact h v

theorem checkScanAux_countB_le (now : Nat) (snap : List Session) :
    ∀ (i : Nat) (st : BotState) (v : String),
      countB (abPred v) (checkScanAux now snap i st).sessions ≤
        countB (abPred v) st.sessions := by
  induction snap with
  | nil =>
    intro i st v
    simp [checkScanAux]
  | cons s rest ih =>
    intro i st v
    unfold checkScanAux
    by_cases hA : (s.status == "Active") = true
    · rw [if_pos hA]
      cases hl : s.lastActivity with
      | none => exact le_refl _
      | some t =>
        dsimp only
        by_cases hidle : now - t > 7200
        · rw [if_pos hidle]
          refine le_trans (ih _ _ v) ?_
          cases hr : nth st.sessions i with
          | none => simp [hr]
          | some r =>
            simp only [hr]
            exact countB_setNth_le_of_false (by simp [abPred]) _ _
        · rw [if_neg hidle]
          exact ih _ _ v
    · rw [if_neg hA]
      by_cases hW : (s.status == "Warning") = true
      · rw [if_pos hW]
        cases hl : s.lastActivity with
        | none => exact le_refl _
        | some t =>
          dsimp only
          by_cases hidle : now - t > 1800
          · rw [if_pos hidle]
            refine le_trans (ih _ _ v) ?_
            exact countB_eraseNth_le _ _ _
          · rw [if_neg hidle]
            exact ih _ _ v
      · rw [if_neg hW]
        exact ih _ _ v

theorem check_session_activity_preserves {st : BotState} (now : Nat)
    (h : ∀ v, countB (abPred v) st.sessions ≤ 1) :
    ∀ v, countB (abPred v) (check_session_activity now st).sessions ≤ 1 := by
  intro v
  unfold check_session_activity
  by_cases hc : now - st.lastActivityCheck < 300
  · rw [if_pos hc]
    exact h v
  · rw [if_neg hc]
    exact le_trans (checkScanAux_countB_le now _ 0 _ v) (h v)

theorem stepCmd_preserves {st : BotState} (c : Cmd)
    (h : ∀ v, countB (abPred v) st.sessions ≤ 1) :
    ∀ v, countB (abPred v) (stepCmd st c).sessions ≤ 1 := by
  cases c with
  | start u uid now sid => exact start_session_preserves u uid now sid h
  | stop u uid now aid => exact stop_session_preserves u uid now aid h
  | working u uid now => exact confirm_working_preserves u uid now h
  | brk u uid d now rid => exact start_break_preserves u uid d now rid h
  | tick now => exact check_session_activity_preserves now h

theorem foldl_stepCmd_inv (cs : List Cmd) :
    ∀ st : BotState, (∀ v, countB (abPred v) st.sessions ≤ 1) →
      ∀ v, countB (abPred v) (cs.foldl stepCmd st).sessions ≤ 1 := by
  induction cs with
  | nil => intro st h; exact h
  | cons c rest ih =>
    intro st h
    exact ih _ (stepCmd_preserves c h)

/-! ## The streak walk -/

theorem streakLoop_spec (dates : List Int) :
    ∀ (k : Nat) (current : Int) (fuel : Nat), k ≤ fuel →
      (∀ j : Nat, j < k → (current - (j : Int)) ∈ dates) →
      (current - (k : Int)) ∉ dates →
      streakLoop dates current fuel = k := by
  intro k
  induction k with
  | zero =>
    intro current fuel _ _ hgap
    have hc : current ∉ dates := by simpa using hgap
    cases fuel with
    | zero => rfl
    | succ f => simp [streakLoop, hc]
  | succ k ih =>
    intro current fuel hkf hin hgap
    cases fuel with
    | zero => omega
    | succ f =>
      have hc : current ∈ dates := by
        have := hin 0 (Nat.succ_pos k)
        simpa using this
      have hrec : streakLoop dates (current - 1) f = k := by
        refine ih (current - 1) f (by omega) ?_ ?_
        · intro j hj
          have := hin (j + 1) (by omega)
          have harith : current - ((j : Int) + 1) = current - 1 - (j : Int) := by ring
          rw [← harith]
          simpa using this
        · have harith : current - ((k : Int) + 1) = current - 1 - (k : Int) := by ring
          rw [← harith]
          simpa using hgap
      simp [streakLoop, hc, hrec]

theorem consecutive_le_length {dates : List Int} {today : Int} {k : Nat}
    (hin : ∀ j : Nat, j < k → (today - (j : Int)) ∈ dates) :
    k ≤ dates.length := by
  classical
  have hsub : (Finset.range k).image (fun j : Nat => today - (j : Int)) ⊆
      dates.toFinset := by
    intro x hx
    obtain ⟨j, hj, rfl⟩ := Finset.mem_image.mp hx
    exact List.mem_toFinset.mpr (hin j (Finset.mem_range.mp hj))
  have hcard : ((Finset.range k).image (fun j : Nat => today - (j : Int))).card = k := by
    rw [Finset.card_image_of_injective]
    · exact Finset.card_range k
    · intro a b hab
      simp only at hab
      omega
  calc k = ((Finset.range k).image (fun j : Nat => today - (j : Int))).card := hcard.symm
    _ ≤ dates.toFinset.card := Finset.card_le_card hsub
    _ ≤ dates.length := dates.toFinset_card_le

/-! ## The badge table -/

theorem get_badges_eq (m : Int) :
    get_badges m =
      (if (500 : Int) ≤ m then ["Master Scholar"] else []) ++
      (if (240 : Int) ≤ m then ["Diamond Crown"] else []) ++
      (if (150 : Int) ≤ m then ["Golden Genius"] else []) ++
      (if (110 : Int) ≤ m then ["Silver Brain"] else []) ++
      (if (50 : Int) ≤ m then ["Bronze Mind"] else []) := by
  unfold get_badges badgeLevels
  by_cases h1 : (500 : Int) ≤ m <;> by_cases h2 : (240 : Int) ≤ m <;>
    by_cases h3 : (150 : Int) ≤ m <;> by_cases h4 : (110 : Int) ≤ m <;>
    by_cases h5 : (50 : Int) ≤ m <;>
    simp [h1, h2, h3, h4, h5]

theorem get_badges_nil_iff (m : Int) : get_badges m = [] ↔ m < 50 := by
  rw [get_badges_eq]
  by_cases h5 : (50 : Int) ≤ m
  · rw [if_pos h5]
    simp
    omega
  · rw [if_neg h5]
    have h1 : ¬ (500 : Int) ≤ m := by omega
    have h2 : ¬ (240 : Int) ≤ m := by omega
    have h3 : ¬ (150 : Int) ≤ m := by omega
    have h4 : ¬ (110 : Int) ≤ m := by omega
    simp [h1, h2, h3, h4]
    omega

theorem get_badges_last {m : Int} (h : (50 : Int) ≤ m) :
    (get_badges m).getLastD "" = "Bronze Mind" := by
  rw [get_badges_eq, if_pos h]
  exact List.getLastD_concat _ _ _

/-! ## The hourly session cleanup -/

theorem oldSessionIdxs_cons (now : Nat) (s : Session) (xs : List Session) (i : Nat) :
    oldSessionIdxs now (s :: xs) i =
      match s.lastActivity with
      | some t =>
        if now - t > 86400 then i :: oldSessionIdxs now xs (i + 1)
        else oldSessionIdxs now xs (i + 1)
      | none => oldSessionIdxs now xs (i + 1) := rfl

theorem oldSessionIdxs_shift (now : Nat) (l : List Session) :
    ∀ i : Nat, oldSessionIdxs now l (i + 1) = (oldSessionIdxs now l i).map (· + 1) := by
  induction l with
  | nil => intro i; rfl
  | cons s rest ih =>
    intro i
    cases hl : s.lastActivity with
    | none => simp [oldSessionIdxs_cons, hl, ih]
    | some t =>
      by_cases hc : now - t > 86400
      · simp [oldSessionIdxs_cons, hl, hc, ih]
      · simp [oldSessionIdxs_cons, hl, hc, ih]

theorem oldSessionIdxs_one (now : Nat) (l : List Session) :
    oldSessionIdxs now l 1 = (oldSessionIdxs now l 0).map (· + 1) := by
  simpa using oldSessionIdxs_shift now l 0

theorem foldl_eraseNth_map_succ (idxs : List Nat) (x : α) :
    ∀ xs : List α,
      (idxs.map (· + 1)).foldl (fun acc r => eraseNth acc r) (x :: xs) =
        x :: idxs.foldl (fun acc r => eraseNth acc r) xs := by
  induction idxs with
  | nil => intro xs; rfl
  | cons i rest ih =>
    intro xs
    simp only [List.map_cons, List.foldl_cons]
    rw [show eraseNth (x :: xs) (i + 1) = x :: eraseNth xs i from rfl]
    exact ih (eraseNth xs i)

theorem cleanup_fold_eq_filter (now : Nat) :
    ∀ l : List Session,
      (oldSessionIdxs now l 0).reverse.foldl (fun acc r => eraseNth acc r) l =
        l.filter (fun s => !(staleB now s)) := by
  intro l
  induction l with
  | nil => rfl
  | cons s xs ih =>
    by_cases hstale : staleB now s = true
    · obtain ⟨t, hl, hc⟩ : ∃ t, s.lastActivity = some t ∧ now - t > 86400 := by
        unfold staleB at hstale
        cases hl : s.lastActivity with
        | none => rw [hl] at hstale; cases hstale
        | some t =>
          rw [hl] at hstale
          exact ⟨t, rfl, by simpa using hstale⟩
      have h0 : oldSessionIdxs now (s :: xs) 0 =
          0 :: (oldSessionIdxs now xs 0).map (· + 1) := by
        simp only [oldSessionIdxs_cons, hl]
        rw [if_pos hc]
        simp [oldSessionIdxs_one]
      rw [h0, List.reverse_cons, ← List.map_reverse, List.foldl_append,
        foldl_eraseNth_map_succ, ih]
      rw [show List.foldl (fun acc r => eraseNth acc r)
          (s :: xs.filter (fun z => !(staleB now z))) [0] =
          xs.filter (fun z => !(staleB now z)) from rfl]
      rw [List.filter_cons]
      simp [hstale]
    · have hstale' : staleB now s = false := by
        simpa using hstale
      have h0 : oldSessionIdxs now (s :: xs) 0 =
          (oldSessionIdxs now xs 0).map (· + 1) := by
        simp only [oldSessionIdxs_cons]
        unfold staleB at hstale'
        cases hl : s.lastActivity with
        | none =>
          simp [oldSessionIdxs_one]
        | some t =>
          rw [hl] at hstale'
          simp only
          rw [if_neg (by simpa using hstale')]
          simp [oldSessionIdxs_one]
      rw [h0, ← List.map_reverse, foldl_eraseNth_map_succ, ih]
      rw [List.filter_cons]
      simp [hstale']

/-! ## At-most-once delivery of reminders -/

theorem send_reminder_noop (rid : String) (rems : List Reminder)
    (h : (send_reminder rid rems).2 = none) :
    (send_reminder rid rems).1 = rems := by
  unfold send_reminder at *
  rcases hi : findFirstIdx
      (fun r => r.reminderId == rid && r.status == "Pending") rems with _ | i
  · simp [hi]
  · rw [hi] at h
    simp at h

theorem send_reminder_pend_other (rid rid' : String) (hne : rid' ≠ rid)
    (rems : List Reminder) :
    countB (pendB rid) (send_reminder rid' rems).1 = countB (pendB rid) rems := by
  unfold send_reminder
  rcases hi : findFirstIdx
      (fun r => r.reminderId == rid' && r.status == "Pending") rems with _ | i
  · simp [hi]
  · obtain ⟨x, hx, hpx⟩ := ffi_nth hi
    simp only [Bool.and_eq_true] at hpx
    have hxid : x.reminderId = rid' := by
      have := hpx.1
      simpa using this
    simp only [hi]
    rw [hx, Option.getD_some]
    apply countB_setNth_eq hx
    unfold pendB
    have hfalse : (x.reminderId == rid) = false := by
      simp [hxid, hne]
    simp [hfalse]

theorem send_reminder_deliver_pend (rid : String) (rems : List Reminder)
    {m : String} (h : (send_reminder rid rems).2 = some m) :
    countB (pendB rid) (send_reminder rid rems).1 + 1 = countB (pendB rid) rems := by
  unfold send_reminder at *
  rcases hi : findFirstIdx
      (fun r => r.reminderId == rid && r.status == "Pending") rems with _ | i
  · rw [hi] at h
    simp at h
  · obtain ⟨x, hx, hpx⟩ := ffi_nth hi
    simp only [hi]
    rw [hx, Option.getD_some]
    refine countB_setNth_pend hx ?_ ?_
    · exact hpx
    · unfold pendB
      simp

theorem fireSeq_count_le (rid : String) :
    ∀ (fires : List String) (rems : List Reminder),
      ((fireSeq fires rems).2).count rid ≤ countB (pendB rid) rems := by
  intro fires
  induction fires with
  | nil =>
    intro rems
    simp [fireSeq]
  | cons rid' rest ih =>
    intro rems
    unfold fireSeq
    rcases hsr : send_reminder rid' rems with ⟨rems1, res⟩
    cases res with
    | none =>
      have h1 : rems1 = rems := by
        have := send_reminder_noop rid' rems (by rw [hsr])
        rw [hsr] at this
        exact this
      subst h1
      exact ih rems1
    | some m =>
      dsimp only
      by_cases hr : rid' = rid
      · subst hr
        have hd := send_reminder_deliver_pend rid' rems (by rw [hsr])
        rw [hsr] at hd
        dsimp only at hd
        have hlog := ih rems1
        rw [List.count_cons]
        have hif : (rid' == rid') = true := by simp
        rw [if_pos hif]
        omega
      · have hd := send_reminder_pend_other rid rid' hr rems
        rw [hsr] at hd
        dsimp only at hd
        have hlog := ih rems1
        rw [List.count_cons]
        have hif : (rid' == rid) = false := by simp [hr]
        rw [hif]
        simpa [hd] using hlog

theorem countB_eq_count_map {β : Type} [DecidableEq β] (f : α → β) (a : β) :
    ∀ l : List α, countB (fun x => f x == a) l = (l.map f).count a := by
  intro l
  induction l with
  | nil => simp [countB]
  | cons x xs ih =>
    rw [List.map_cons, List.count_cons]
    unfold countB
    rw [ih]
    by_cases hx : f x = a
    · simp [hx]
      omega
    · simp [hx]

theorem pendB_count_le_one {rems : List Reminder}
    (huniq : (rems.map (fun r => r.reminderId)).Nodup) (rid : String) :
    countB (pendB rid) rems ≤ 1 := by
  have h1 : countB (pendB rid) rems ≤
      countB (fun r => r.reminderId == rid) rems := by
    apply countB_mono
    intro r hr
    unfold pendB at hr
    simp only [Bool.and_eq_true] at hr
    exact hr.1
  have h2 : countB (fun r => r.reminderId == rid) rems =
      (rems.map (fun r => r.reminderId)).count rid :=
    countB_eq_count_map _ _ _
  have h3 := List.nodup_iff_count_le_one.mp huniq rid
  omega

/-! ## Claim theorems -/

/-- Claim C1, counterexample.  The claimed invariant of at most one
non-terminal (`Active`, `Break` or `Warning`) session row per user is
violated by a reachable interleaving: `start` at time 0, a monitor tick at
7301 seconds (idle above the two-hour threshold, turning the session to
`Warning`), then `start` again.  The second `start` succeeds with the
started message instead of failing with the already-active message, and the
user ends with two non-terminal session rows. -/
theorem warning_session_does_not_block_start :
    countB (nonTerminalPred "u1")
      (start_session "u" "u1" 7301 "s2"
        (runCmds [Cmd.start "u" "u1" 0 "s1", Cmd.tick 7301])).1.sessions = 2 ∧
    (start_session "u" "u1" 7301 "s2"
      (runCmds [Cmd.start "u" "u1" 0 "s1", Cmd.tick 7301])).2 =
      "u, study session started! Use !stop to end." := by
  constructor
  · decide
  · decide

/-- Claim C1 as amended: over every interleaving of `start`, `stop`,
`break`, `working` and monitor ticks from the empty spreadsheet, each user
has at most one session row with status `Active` or `Break` (a `Warning`
row does not count and does not block `start`), and whenever such a row
exists, `start` replies with the already-active message and leaves the
state unchanged. -/
theorem at_most_one_active_or_break_session (cs : List Cmd) (uid : String) :
    countB (abPred uid) (runCmds cs).sessions ≤ 1 ∧
    (∀ uname now sid, (runCmds cs).sessions.any (abPred uid) = true →
      start_session uname uid now sid (runCmds cs) =
        ((runCmds cs), uname ++ ", you already have an active session!")) := by
  constructor
  · have hinit : ∀ v, countB (abPred v) initState.sessions ≤ 1 := by
      intro v
      simp [initState, countB]
    exact foldl_stepCmd_inv cs initState hinit uid
  · intro uname now sid hex
    unfold start_session
    rw [if_pos hex]

/-- Witness for the amended claim C1 at a concrete interleaving. -/
theorem at_most_one_active_or_break_session_witness :
    countB (abPred "u1") (runCmds [Cmd.start "u" "u1" 0 "s1"]).sessions ≤ 1 ∧
    start_session "v" "u1" 50 "s9" (runCmds [Cmd.start "u" "u1" 0 "s1"]) =
      ((runCmds [Cmd.start "u" "u1" 0 "s1"]),
       "v, you already have an active session!") :=
  ⟨(at_most_one_active_or_break_session [Cmd.start "u" "u1" 0 "s1"] "u1").1,
   (at_most_one_active_or_break_session [Cmd.start "u" "u1" 0 "s1"] "u1").2
     "v" 50 "s9" (by decide)⟩

/-- Claim C2 (confirmed): for a user whose first live (`Active` or `Break`)
session row has a parsing `StartTime` at or before `now`, `stop` computes
`study = max 0 (floor((now - t0) / 60) - TotalBreakTime)`, awards
`xp = study * 2`, appends exactly one `StudySession` activity row with that
XP and duration, adds the XP to the user row `TotalXP` (with rank and
badges recomputed) and the minutes to `TotalStudyMinutes`, and deletes the
session row. -/
theorem stop_session_spec {st : BotState} {userid : String}
    {i j : Nat} {s : Session} {u : UserRow} {t0 : Nat}
    (username : String) (now : Nat) (aid : String)
    (hi : findFirstIdx (abPred userid) st.sessions = some i)
    (hs : nth st.sessions i = some s)
    (ht : s.startTime = some t0)
    (hle : t0 ≤ now)
    (hj : findFirstIdx (fun w => w.userId == userid) st.users = some j)
    (hu : nth st.users j = some u) :
    stop_session username userid now aid st =
      (let study : Int := max 0 ((((now - t0) / 60 : Nat) : Int) - s.totalBreakTime)
      ({ st with
          activities := st.activities ++
            [⟨aid, userid, username, "StudySession", study * 2,
              toString study ++ " min",
              "Studied for " ++ toString study ++ " minutes",
              some now, monthOf now⟩],
          users := setNth st.users j
            { u with totalXP := u.totalXP + study * 2,
                     rank := get_rank (u.totalXP + study * 2),
                     lastActive := now,
                     totalStudyMinutes := u.totalStudyMinutes + study,
                     badges := get_user_badges (u.totalStudyMinutes + study) },
          sessions := eraseNth st.sessions i },
       some (username ++ ", studied " ++ toString study ++ "min, earned " ++
         toString (study * 2) ++ "XP!" ++
         (if get_badges study = [] then ""
          else " New badge: " ++ (get_badges study).getLastD "" ++ "!")))) :=
  stop_session_unfolded username now aid hi hs ht hle hj hu

/-- Witness for claim C2, the example of the specification: a session
started at 10:00:00 and stopped at 10:47:00 with no breaks yields 47
minutes and 94 XP. -/
theorem stop_session_spec_witness :
    (stop_session "u" "u1" 38820 "a1"
      ⟨[⟨"u1", "u", 0, 0, 0, "Newbie", 0, 0, "Inactive", ""⟩],
       [⟨"s1", "u1", "u", some 36000, some 36000, "Active", none, 0⟩],
       [], [], [], 0⟩).2 =
      some "u, studied 47min, earned 94XP!" := by
  have h := @stop_session_spec
    ⟨[⟨"u1", "u", 0, 0, 0, "Newbie", 0, 0, "Inactive", ""⟩],
     [⟨"s1", "u1", "u", some 36000, some 36000, "Active", none, 0⟩],
     [], [], [], 0⟩
    "u1" 0 0
    ⟨"s1", "u1", "u", some 36000, some 36000, "Active", none, 0⟩
    ⟨"u1", "u", 0, 0, 0, "Newbie", 0, 0, "Inactive", ""⟩
    36000 "u" 38820 "a1" (by decide) (by decide) (by decide) (by decide)
    (by decide) (by decide)
  rw [h]
  decide

/-- Claim C3, counterexample.  A `Warning` session idle for 9100 seconds
(beyond the claimed 2h30m = 9000s threshold) is terminated by the monitor
tick, but contrary to the claim no `InactivityPenalty` activity row is
appended (the activity ledger stays empty) and the XP deduction is not
clamped at 0: the user at 10 XP ends at -40 XP. -/
theorem inactivity_penalty_no_activity_row_and_negative_xp :
    (check_session_activity 9100
        ⟨[⟨"u1", "u", 10, 0, 0, "Newbie", 0, 0, "Inactive", ""⟩],
         [⟨"s1", "u1", "u", some 0, some 0, "Warning", none, 0⟩],
         [], [], [], 0⟩).activities = [] ∧
    (check_session_activity 9100
        ⟨[⟨"u1", "u", 10, 0, 0, "Newbie", 0, 0, "Inactive", ""⟩],
         [⟨"s1", "u1", "u", some 0, some 0, "Warning", none, 0⟩],
         [], [], [], 0⟩).sessions = [] ∧
    (nth (check_session_activity 9100
        ⟨[⟨"u1", "u", 10, 0, 0, "Newbie", 0, 0, "Inactive", ""⟩],
         [⟨"s1", "u1", "u", some 0, some 0, "Warning", none, 0⟩],
         [], [], [], 0⟩).users 0).map UserRow.totalXP = some (-40) ∧
    (-40 : Int) < 0 := by
  refine ⟨?_, ?_, ?_, ?_⟩ <;> decide

/-- Claim C3 as amended: when the monitor scan runs (cooldown passed), a
`Warning` session row with a parsed `LastActivity` more than 30 minutes old
costs its user a flat 50 XP with no floor (`TotalXP` can become negative;
rank recomputed, `LastActive` refreshed, badges recomputed from the
unchanged minute total) and no `InactivityPenalty` activity row is ever
appended.  The row deletion, however, uses the stale snapshot index against
the live sheet: when the overdue `Warning` row is the only session row
(first conjunct, general) it is deleted, but with several overdue `Warning`
rows in one scan the deletions drift after the first one and an overdue
`Warning` row survives the scan while its user is still penalized (second
conjunct: two overdue rows, both users end at -40 XP, the second `Warning`
row remains in the sheet). -/
theorem check_session_activity_warning_terminates :
    (∀ (st : BotState) (s : Session) (t j : Nat) (u : UserRow) (now : Nat),
      ¬(now - st.lastActivityCheck < 300) →
      st.sessions = [s] →
      s.status = "Warning" →
      s.lastActivity = some t →
      now - t > 1800 →
      findFirstIdx (fun w => w.userId == s.userId) st.users = some j →
      nth st.users j = some u →
      check_session_activity now st =
        { st with lastActivityCheck := now,
                  sessions := [],
                  users := setNth st.users j (xpRow u (-50) now) }) ∧
    check_session_activity 2000
      ⟨[⟨"u1", "u", 10, 0, 0, "Newbie", 0, 0, "Inactive", ""⟩,
        ⟨"u2", "v", 10, 0, 0, "Newbie", 0, 0, "Inactive", ""⟩],
       [⟨"s1", "u1", "u", some 0, some 0, "Warning", none, 0⟩,
        ⟨"s2", "u2", "v", some 0, some 0, "Warning", none, 0⟩],
       [], [], [], 0⟩ =
      ⟨[⟨"u1", "u", -40, 0, 0, "Newbie", 0, 2000, "Inactive", ""⟩,
        ⟨"u2", "v", -40, 0, 0, "Newbie", 0, 2000, "Inactive", ""⟩],
       [⟨"s2", "u2", "v", some 0, some 0, "Warning", none, 0⟩],
       [], [], [], 2000⟩ := by
  constructor
  · intro st s t j u now hcool hsess hw hl hidle hj hu
    unfold check_session_activity
    rw [if_neg hcool]
    have hsess' : ({ st with lastActivityCheck := now } : BotState).sessions = [s] := hsess
    rw [hsess']
    unfold checkScanAux
    rw [hw, hl]
    have hA : (("Warning" : String) == "Active") = false := by decide
    have hW : (("Warning" : String) == "Warning") = true := by decide
    rw [hA, hW]
    simp only [Bool.false_eq_true, if_false, if_true]
    rw [if_pos hidle]
    unfold checkScanAux
    rw [update_user_xp_found (-50) now hj hu]
    rfl
  · decide

/-- Witness for the amended claim C3, applying the general conjunct at a
concrete single-session state. -/
theorem check_session_activity_warning_terminates_witness :
    check_session_activity 2000
      ⟨[⟨"u1", "u", 10, 0, 0, "Newbie", 0, 0, "Inactive", ""⟩],
       [⟨"s1", "u1", "u", some 0, some 0, "Warning", none, 0⟩],
       [], [], [], 0⟩ =
      ⟨[⟨"u1", "u", -40, 0, 0, "Newbie", 0, 2000, "Inactive", ""⟩],
       [], [], [], [], 2000⟩ := by
  have h := check_session_activity_warning_terminates.1
    ⟨[⟨"u1", "u", 10, 0, 0, "Newbie", 0, 0, "Inactive", ""⟩],
     [⟨"s1", "u1", "u", some 0, some 0, "Warning", none, 0⟩],
     [], [], [], 0⟩
    ⟨"s1", "u1", "u", some 0, some 0, "Warning", none, 0⟩
    0 0
    ⟨"u1", "u", 10, 0, 0, "Newbie", 0, 0, "Inactive", ""⟩
    2000 (by decide) (by decide) (by decide) (by decide) (by decide)
    (by decide) (by decide)
  rw [h]
  decide

/-- Claim C4 (the claim is right, the code is wrong): `confirm_working`
only matches sessions with status `Active` or `Break`, so a user whose
session is in `Warning` status — exactly the user the monitor just told to
type `!working` to continue — is answered with the no-active-session
failure message and the session stays in `Warning` with its `LastActivity`
unrefreshed, instead of being rescued back to `Active`. -/
theorem confirm_working_rejects_warning_session :
    confirm_working "u" "u1" 9000
      ⟨[⟨"u1", "u", 10, 0, 0, "Newbie", 0, 0, "Inactive", ""⟩],
       [⟨"s1", "u1", "u", some 0, some 0, "Warning", none, 0⟩],
       [], [], [], 0⟩ =
      (⟨[⟨"u1", "u", 10, 0, 0, "Newbie", 0, 0, "Inactive", ""⟩],
        [⟨"s1", "u1", "u", some 0, some 0, "Warning", none, 0⟩],
        [], [], [], 0⟩,
       "u, no active session found.") := by
  decide

/-- Claim C5, counterexample.  The badge message of `stop` is computed from
the session minutes alone, not from the cumulative totals: a user at 40
total minutes who studies 30 minutes crosses the 50-minute threshold
(40 < 50 and 50 ≤ 70) yet gets no badge message, while a user already at
500 total minutes who studies 60 minutes unlocks nothing new
(`get_badges 560 = get_badges 500`) yet is told again about the lowest
badge. -/
theorem stop_badge_message_ignores_cumulative_total :
    ((stop_session "u" "u1" 1800 "a1"
        ⟨[⟨"u1", "u", 0, 0, 40, "Newbie", 0, 0, "Inactive", ""⟩],
         [⟨"s1", "u1", "u", some 0, some 0, "Active", none, 0⟩],
         [], [], [], 0⟩).2 =
      some "u, studied 30min, earned 60XP!") ∧
    (40 : Int) < 50 ∧ (50 : Int) ≤ 40 + 30 ∧
    ((stop_session "u" "u1" 3600 "a2"
        ⟨[⟨"u1", "u", 1000, 0, 500, "Legend", 0, 0, "Inactive",
           "Master Scholar, Diamond Crown, Golden Genius, Silver Brain, Bronze Mind"⟩],
         [⟨"s2", "u1", "u", some 0, some 0, "Active", none, 0⟩],
         [], [], [], 0⟩).2 =
      some "u, studied 60min, earned 120XP! New badge: Bronze Mind!") ∧
    get_badges (500 + 60) = get_badges 500 := by
  refine ⟨?_, ?_, ?_, ?_, ?_⟩ <;> decide

/-- Claim C5 as amended: the reply of `stop` carries a badge message
exactly when the session study minutes alone reach the lowest badge
threshold of 50, and the badge named is then always the lowest one,
`Bronze Mind` — independent of the cumulative totals before and after the
session. -/
theorem stop_badge_message_from_session_minutes {st : BotState}
    {userid : String} {i j : Nat} {s : Session} {u : UserRow} {t0 : Nat}
    (username : String) (now : Nat) (aid : String)
    (hi : findFirstIdx (abPred userid) st.sessions = some i)
    (hs : nth st.sessions i = some s)
    (ht : s.startTime = some t0)
    (hle : t0 ≤ now)
    (hj : findFirstIdx (fun w => w.userId == userid) st.users = some j)
    (hu : nth st.users j = some u) :
    (stop_session username userid now aid st).2 =
      (let study : Int := max 0 ((((now - t0) / 60 : Nat) : Int) - s.totalBreakTime)
      some (username ++ ", studied " ++ toString study ++ "min, earned " ++
        toString (study * 2) ++ "XP!" ++
        (if (50 : Int) ≤ study then " New badge: Bronze Mind!" else ""))) := by
  rw [stop_session_unfolded username now aid hi hs ht hle hj hu]
  dsimp only
  by_cases hb : (50 : Int) ≤ max 0 ((((now - t0) / 60 : Nat) : Int) - s.totalBreakTime)
  · rw [if_pos hb]
    have hne : ¬(get_badges (max 0 ((((now - t0) / 60 : Nat) : Int) - s.totalBreakTime)) = []) := by
      rw [get_badges_nil_iff]
      omega
    rw [if_neg hne, get_badges_last hb]
    rfl
  · rw [if_neg hb]
    have hnil : get_badges (max 0 ((((now - t0) / 60 : Nat) : Int) - s.totalBreakTime)) = [] := by
      rw [get_badges_nil_iff]
      omega
    rw [if_pos hnil]

/-- Witness for the amended claim C5: a 60-minute session yields the
`Bronze Mind` message regardless of the cumulative total. -/
theorem stop_badge_message_from_session_minutes_witness :
    (stop_session "u" "u1" 3600 "a2"
      ⟨[⟨"u1", "u", 1000, 0, 500, "Legend", 0, 0, "Inactive",
         "Master Scholar, Diamond Crown, Golden Genius, Silver Brain, Bronze Mind"⟩],
       [⟨"s2", "u1", "u", some 0, some 0, "Active", none, 0⟩],
       [], [], [], 0⟩).2 =
      some "u, studied 60min, earned 120XP! New badge: Bronze Mind!" := by
  have h := @stop_badge_message_from_session_minutes
    ⟨[⟨"u1", "u", 1000, 0, 500, "Legend", 0, 0, "Inactive",
       "Master Scholar, Diamond Crown, Golden Genius, Silver Brain, Bronze Mind"⟩],
     [⟨"s2", "u1", "u", some 0, some 0, "Active", none, 0⟩],
     [], [], [], 0⟩
    "u1" 0 0
    ⟨"s2", "u1", "u", some 0, some 0, "Active", none, 0⟩
    ⟨"u1", "u", 1000, 0, 500, "Legend", 0, 0, "Inactive",
     "Master Scholar, Diamond Crown, Golden Genius, Silver Brain, Bronze Mind"⟩
    0 "u" 3600 "a2" (by decide) (by decide) (by decide) (by decide)
    (by decide) (by decide)
  rw [h]
  decide

/-- Claim C6, counterexample.  Setting the goal `abc` twice in a row from
the empty spreadsheet leaves the user with two `Active` goal rows: the
`goal` command performs no one-active-goal check before appending. -/
theorem set_goal_allows_two_active_goals :
    countB (fun g => g.userId == "u1" && g.status == "Active")
      (set_goal "u" "u1" "abc" 5 "g2"
        (set_goal "u" "u1" "abc" 0 "g1" initState).1).1.goals = 2 := by
  decide

/-- Claim C6 as amended: with goal text of at least three characters after
stripping, `set_goal` appends a new `Active` goal row unconditionally,
regardless of any `Active` goal the user already has — so several `Active`
goal rows per user can coexist.  (Only empty or too-short text takes the
show-current-goal path.) -/
theorem set_goal_appends_unconditionally (st : BotState)
    (uname uid args : String) (now : Nat) (gid : String)
    (h1 : args ≠ "") (h2 : ¬((stripStr args).length < 3)) :
    set_goal uname uid args now gid st =
      ({ st with goals := st.goals ++ [⟨gid, uid, uname, stripStr args, now, "Active"⟩] },
       uname ++ ", goal set: " ++ stripStr args) := by
  unfold set_goal
  have hcond : ¬((args == "" || decide ((stripStr args).length < 3)) = true) := by
    simp [h1, h2]
  rw [if_neg hcond]

/-- Witness for the amended claim C6 at a concrete state. -/
theorem set_goal_appends_unconditionally_witness :
    set_goal "u" "u1" "abc" 0 "g1" initState =
      ({ initState with goals := [⟨"g1", "u1", "u", "abc", 0, "Active"⟩] },
       "u, goal set: abc") := by
  have h := set_goal_appends_unconditionally initState "u" "u1" "abc" 0 "g1"
    (by decide) (by decide)
  rw [h]
  decide

/-- Claim C7 (confirmed): the `attend` command is idempotent within a
calendar day — when the ledger already holds an `Attendance` activity of
the user whose timestamp parses to the current day, a further call returns
the already-marked message and changes nothing: no activity row is
appended, and `TotalXP` and `CurrentStreak` are untouched (the whole state
is returned unchanged). -/
theorem mark_attendance_idempotent_same_day {st : BotState} {a : Activity}
    {t : Nat} (uname uid : String) (now : Nat) (aid : String)
    (ha : a ∈ st.activities) (h1 : a.userId = uid)
    (h2 : a.action = "Attendance") (h3 : a.timestamp = some t)
    (h4 : dateOf t = dateOf now) :
    mark_attendance uname uid now aid st =
      (st, uname ++ ", attendance already marked") := by
  unfold mark_attendance
  have hany : st.activities.any (attendedToday uid (dateOf now)) = true := by
    rw [List.any_eq_true]
    refine ⟨a, ha, ?_⟩
    unfold attendedToday
    rw [h3]
    simp [h1, h2, h4]
  rw [if_pos hany]

/-- Witness for claim C7 at a concrete state: a second `attend` on the same
day is a no-op. -/
theorem mark_attendance_idempotent_same_day_witness :
    mark_attendance "u" "u1" 86500 "a9"
      ⟨[⟨"u1", "u", 10, 1, 0, "Newbie", 1, 86450, "Inactive", ""⟩],
       [],
       [⟨"a1", "u1", "u", "Attendance", 10, "", "Daily attendance", some 86450, 0⟩],
       [], [], 0⟩ =
      (⟨[⟨"u1", "u", 10, 1, 0, "Newbie", 1, 86450, "Inactive", ""⟩],
        [],
        [⟨"a1", "u1", "u", "Attendance", 10, "", "Daily attendance", some 86450, 0⟩],
        [], [], 0⟩,
       "u, attendance already marked") := by
  have h := @mark_attendance_idempotent_same_day
    ⟨[⟨"u1", "u", 10, 1, 0, "Newbie", 1, 86450, "Inactive", ""⟩],
     [],
     [⟨"a1", "u1", "u", "Attendance", 10, "", "Daily attendance", some 86450, 0⟩],
     [], [], 0⟩
    ⟨"a1", "u1", "u", "Attendance", 10, "", "Daily attendance", some 86450, 0⟩
    86450 "u" "u1" 86500 "a9"
    (by decide) (by decide) (by decide) (by decide) (by decide)
  exact h

/-- Claim C8 (confirmed): `calculate_streak` collects the calendar dates of
the user's `Attendance` activities (skipping unparseable timestamps) and
returns the count of consecutive attended days ending today: whenever the
days `today, today-1, ..., today-(k-1)` are all attended and `today-k` is
not, the result is exactly `k` — in particular 0 when today is absent or
when the user has no attendance at all, and 3 for attendance on days
`N, N-1, N-2` with a gap at `N-3` when today is `N`. -/
theorem calculate_streak_counts_consecutive_days (uid : String) (today : Int)
    (acts : List Activity) (k : Nat)
    (hin : ∀ j : Nat, j < k → (today - (j : Int)) ∈ attendanceDates uid acts)
    (hgap : (today - (k : Int)) ∉ attendanceDates uid acts) :
    calculate_streak uid today acts = k := by
  unfold calculate_streak
  by_cases hnil : attendanceDates uid acts = []
  · rw [if_pos hnil]
    rcases Nat.eq_zero_or_pos k with hk | hk
    · omega
    · exfalso
      have := hin 0 hk
      rw [hnil] at this
      simp at this
  · rw [if_neg hnil]
    exact streakLoop_spec _ k today _ (consecutive_le_length hin) hin hgap

/-- Witness for claim C8, the example of the specification: attendance on
days N, N-1, N-2 with a gap at N-3 gives a streak of 3 when today is N
(here N is day 20000). -/
theorem calculate_streak_counts_consecutive_days_witness :
    calculate_streak "u1" 20000
      [⟨"a1", "u1", "u", "Attendance", 10, "", "", some (20000 * 86400), 0⟩,
       ⟨"a2", "u1", "u", "Attendance", 10, "", "", some (19999 * 86400), 0⟩,
       ⟨"a3", "u1", "u", "Attendance", 10, "", "", some (19998 * 86400), 0⟩,
       ⟨"a4", "u1", "u", "Attendance", 10, "", "", some (19996 * 86400), 0⟩] = 3 :=
  calculate_streak_counts_consecutive_days "u1" 20000
    [⟨"a1", "u1", "u", "Attendance", 10, "", "", some (20000 * 86400), 0⟩,
     ⟨"a2", "u1", "u", "Attendance", 10, "", "", some (19999 * 86400), 0⟩,
     ⟨"a3", "u1", "u", "Attendance", 10, "", "", some (19998 * 86400), 0⟩,
     ⟨"a4", "u1", "u", "Attendance", 10, "", "", some (19996 * 86400), 0⟩]
    3 (by decide) (by decide)

/-- Claim C9 (confirmed): when reminder ids are unique in the `Reminders`
sheet, a given reminder id is delivered at most once across any sequence of
scheduler fires (including duplicate schedules of the same id): the fire
callback re-reads the row, is a no-op when it is already `Sent`, and
otherwise delivers and marks it `Sent`. -/
theorem send_reminder_at_most_once (rems : List Reminder)
    (huniq : (rems.map (fun r => r.reminderId)).Nodup)
    (fires : List String) (rid : String) :
    ((fireSeq fires rems).2).count rid ≤ 1 :=
  le_trans (fireSeq_count_le rid fires rems) (pendB_count_le_one huniq rid)

/-- Witness for claim C9: two pending reminders, with the first scheduled
(and fired) three times, are each delivered at most once. -/
theorem send_reminder_at_most_once_witness :
    (([⟨"r1", "u1", "u", "msg1", 100, "Pending", "User"⟩,
       ⟨"r2", "u1", "u", "msg2", 200, "Pending", "User"⟩] :
        List Reminder).map (fun r => r.reminderId)).Nodup ∧
    ((fireSeq ["r1", "r1", "r2", "r1"]
        [⟨"r1", "u1", "u", "msg1", 100, "Pending", "User"⟩,
         ⟨"r2", "u1", "u", "msg2", 200, "Pending", "User"⟩]).2).count "r1" ≤ 1 :=
  ⟨by decide,
   send_reminder_at_most_once
     [⟨"r1", "u1", "u", "msg1", 100, "Pending", "User"⟩,
      ⟨"r2", "u1", "u", "msg2", 200, "Pending", "User"⟩]
     (by decide) ["r1", "r1", "r2", "r1"] "r1"⟩

/-- Claim C10 (confirmed): the hourly cleanup deletes exactly the session
rows whose `LastActivity` parses to more than 24 hours before `now`,
whatever their status (`Active` and `Break` rows included, with no
`StudySession` activity appended and no XP or minutes credited), deleting
in descending row order, and changes nothing else: the remaining sessions
are the filter of the younger (or unparseable) rows in order, and the
users, activities, goals and reminders tables are untouched. -/
theorem cleanup_old_sessions_filters_stale_rows (now : Nat) (st : BotState) :
    cleanup_old_sessions now st =
      { st with sessions := st.sessions.filter (fun s => !(staleB now s)) } := by
  unfold cleanup_old_sessions
  dsimp only
  rw [cleanup_fold_eq_filter]
